import Mathlib

/-!
Verification of the CSExporter repository (CrowdStrike policy/indicator
export scripts) against its natural-language specification.

Each Python source function relevant to the frozen claims is shallowly
embedded as an executable Lean definition, keeping the source structure:
dictionaries with optional fields become structures with Option fields,
Python dict insertion order becomes association lists that update in
place and append new keys at the end, fallible code returns Option or
Except, and the unbounded while loop of the paged fetch is given explicit
fuel (running out of fuel models nontermination and returns none).
-/

namespace HostGroups

/-- One page response of the list endpoint
/devices/combined/host-groups/v1: data.get("resources", []) and
data.get("meta", hm).get("pagination", hm).get("total", 0), the latter
kept as an Option so that a missing total field is visible. -/
structure Page (α : Type) where
  resources : List α
  total : Option Nat
  deriving Repr, DecidableEq

/-- The while-True loop body of fetch_host_groups
(src/CSExporter/exporthostgroups.py lines 49-63).  The upstream is a
function from the offset parameter to the page it returns; limit is the
fixed page size (100 in the source); offset starts at 0 and grows by
limit; the loop stops when offset + len(resources) >= total where total
defaults to 0 if the pagination metadata lacks it.  The second component
of the result counts the page requests issued. -/
def fetchLoop (resp : Nat → Page α) (limit : Nat) :
    Nat → Nat → List α → Nat → Option (List α × Nat)
  | 0, _, _, _ => none
  | fuel + 1, offset, acc, reqs =>
    let page := resp offset
    let acc2 := acc ++ page.resources
    if page.total.getD 0 ≤ offset + page.resources.length then
      some (acc2, reqs + 1)
    else
      fetchLoop resp limit fuel (offset + limit) acc2 (reqs + 1)

/-- fetch_host_groups (src/CSExporter/exporthostgroups.py lines 42-67):
all_resources starts empty, offset starts at 0. -/
def fetch_host_groups (resp : Nat → Page α) (limit fuel : Nat) :
    Option (List α × Nat) :=
  fetchLoop resp limit fuel 0 [] 0

/-- The canonical total-count upstream: a fixed dataset served in request
order, each response carrying up to limit items starting at the requested
offset and reporting the true total in its pagination metadata. -/
def canonResp (data : List α) (limit : Nat) : Nat → Page α :=
  fun offset => ⟨(data.drop offset).take limit, some data.length⟩

/-- ceil(t / p) written as (t + p - 1) / p on Nat. -/
def ceilDiv (t p : Nat) : Nat := (t + p - 1) / p

end HostGroups

namespace Exclusions

/-- The per-id loop of fetch_details (src/CSExporter/exportexclusions.py
lines 65-86): one request per identifier; a response is some resources on
HTTP 200 with a parseable body and none otherwise (non-200 status or
ValueError from resp.json()); failed identifiers are skipped with a log
line and the loop continues.  The result carries the accumulated details,
the number of skipped (failed) identifiers and the number of identifiers
attempted. -/
def fetch_details (resp : ι → Option (List ρ)) : List ι → List ρ × Nat × Nat
  | [] => ([], 0, 0)
  | i :: rest =>
    let r := fetch_details resp rest
    match resp i with
    | none => (r.1, r.2.1 + 1, r.2.2 + 1)
    | some rs => (rs ++ r.1, r.2.1, r.2.2 + 1)

end Exclusions

namespace PPWriter

/-- Sheet name truncation used by every writer: the name itself when at
most 31 characters, else its first 31 characters
(src/CSExporter/exportpp.py line 300). -/
def mkSheetName (s : String) : String :=
  if s.length ≤ 31 then s else s.take 31

/-- The Meta sheet synthesized by save_to_excel
(src/CSExporter/exportpp.py lines 292-296): generation timestamp, the
comma-joined sheet keys and the sheet count. -/
structure MetaSheet where
  generated_at_utc : String
  sistemas_operacionais : String
  total_abas : Nat
  deriving Repr, DecidableEq

def metaOf (per_os : List (String × σ)) (now : String) : MetaSheet :=
  ⟨now, String.intercalate ", " (per_os.map (fun p => p.1)), per_os.length⟩

/-- The ordered sequence of sheets save_to_excel writes into the workbook
(src/CSExporter/exportpp.py lines 298-302): each bundle sheet under its
truncated name, in bundle order, then the Meta sheet last. -/
def sheetSeq (per_os : List (String × σ)) (now : String) :
    List (String × (σ ⊕ MetaSheet)) :=
  per_os.map (fun p => (mkSheetName p.1, Sum.inl p.2))
    ++ [("Meta", Sum.inr (metaOf per_os now))]

/-- Contents of the destination file after save_to_excel runs.  Modelled
filesystem effect: pd.ExcelWriter(outfile) is given the final destination
name directly (src/CSExporter/exportpp.py line 298, no temporary file and
no rename anywhere in the source), so the sheets land in the destination
file one after the other; failAt = some j models an I/O failure once j
sheet writes have reached the file (leaving those j sheets there), and
failAt = none models a failure-free run. -/
def save_to_excel_run (per_os : List (String × σ)) (now : String)
    (failAt : Option Nat) : Option (List (String × (σ ⊕ MetaSheet))) :=
  match failAt with
  | none => some (sheetSeq per_os now)
  | some j => some ((sheetSeq per_os now).take j)

end PPWriter

namespace IoaRules

/-- One entry of the values list inside a field_values entry
(src/CSExporter/exportioarules.py line 91): a dict whose value key may be
absent. -/
structure FVEntry where
  value : Option String
  deriving Repr, DecidableEq

/-- One field_values entry of an IOA rule: name and values keys may be
absent. -/
structure FieldValue where
  name : Option String
  values : Option (List FVEntry)
  deriving Repr, DecidableEq

/-- One rule inside a rule group (src/CSExporter/exportioarules.py lines
82-98); every field is read with a defaulting get. -/
structure Rule where
  name : Option String
  description : Option String
  pattern_severity : Option String
  action_label : Option String
  ruletype_name : Option String
  field_values : Option (List FieldValue)
  deriving Repr, DecidableEq

structure RuleGroup where
  rules : Option (List Rule)
  deriving Repr, DecidableEq

/-- The next(...) generator of src/CSExporter/exportioarules.py lines
91-96: the first field_values entry whose name equals the target supplies
values[0].get("value", ""); values is read with a default of a
one-element list holding an empty dict, so the [0] indexing raises
IndexError when the entry carries an explicitly empty values list,
because that default only covers a missing values key. -/
def extractFV (fvs : List FieldValue) (target : String) :
    Except String String :=
  match fvs.find? (fun fv => fv.name = some target) with
  | none => Except.ok ""
  | some fv =>
    match fv.values.getD [⟨none⟩] with
    | [] => Except.error "IndexError: list index out of range"
    | v :: _ => Except.ok (v.value.getD "")

/-- One output row of transform_rules for one rule
(src/CSExporter/exportioarules.py lines 83-98). -/
def ruleRow (rule : Rule) : Except String (List String) := do
  let fvs := rule.field_values.getD []
  let imageFilename ← extractFV fvs "ImageFilename"
  let commandLine ← extractFV fvs "CommandLine"
  let parentImageFilename ← extractFV fvs "ParentImageFilename"
  let parentCommandLine ← extractFV fvs "ParentCommandLine"
  let grandparentImageFilename ← extractFV fvs "GrandparentImageFilename"
  let grandparentCommandLine ← extractFV fvs "GrandparentCommandLine"
  pure [rule.name.getD "", rule.description.getD "",
    rule.pattern_severity.getD "", rule.action_label.getD "",
    rule.ruletype_name.getD "", imageFilename, commandLine,
    parentImageFilename, parentCommandLine, grandparentImageFilename,
    grandparentCommandLine]

/-- transform_rules (src/CSExporter/exportioarules.py lines 79-101): one
row per rule across all rule groups; an uncaught Python exception while
building a row is an error result. -/
def transform_rules (rule_details : List RuleGroup) :
    Except String (List (List String)) :=
  (rule_details.flatMap (fun g => g.rules.getD [])).mapM ruleRow

end IoaRules

namespace PyDict

/-- Python dict write d[k] with creation: if the key is present its value
is updated in place (position kept); otherwise the key is appended at the
end, starting from the default d.  Models the insertion-order semantics
of Python dicts. -/
def alUpd [DecidableEq κ] (l : List (κ × ν)) (k : κ) (d : ν) (f : ν → ν) :
    List (κ × ν) :=
  match l with
  | [] => [(k, f d)]
  | kv :: rest => if kv.1 = k then (kv.1, f kv.2) :: rest
      else kv :: alUpd rest k d f

/-- First-appearance deduplication: the order in which pandas unions row
dict keys into DataFrame columns. -/
def dedupFirst [DecidableEq κ] (l : List κ) : List κ :=
  l.foldl (fun acc k => if k ∈ acc then acc else acc ++ [k]) []

end PyDict

namespace PyStr

/-- Does pat occur as a contiguous part of s (the Python in operator on
strings), at the character-list level. -/
def occurs (pat : List Char) : List Char → Bool
  | [] => pat.isEmpty
  | c :: rest => pat.isPrefixOf (c :: rest) || occurs pat rest

def containsSub (s pat : String) : Bool := occurs pat.data s.data

/-- pat in s.lower() for an already-lowercase pat (Python str.lower is
modelled per character; the source only matches ASCII patterns). -/
def icontains (s pat : String) : Bool :=
  occurs pat.data (s.data.map Char.toLower)

/-- Python str.replace on character lists: every leftmost non-overlapping
occurrence of pat is replaced by rep.  Structural recursion on fuel so
that concrete computations reduce; with fuel at least the length of the
input and a nonempty pat the fuel never runs out. -/
def replFuel (pat rep : List Char) : Nat → List Char → List Char
  | 0, s => s
  | fuel + 1, s =>
    match s with
    | [] => []
    | c :: rest =>
      if !pat.isEmpty && pat.isPrefixOf (c :: rest) then
        rep ++ replFuel pat rep fuel ((c :: rest).drop pat.length)
      else c :: replFuel pat rep fuel rest

/-- Python s.replace(pat, rep). -/
def pyReplace (s pat rep : String) : String :=
  ⟨replFuel pat.data rep.data s.data.length s.data⟩

/-- Python str.split(sep) for a nonempty sep, on character lists;
structural on fuel like replFuel. -/
def splitFuel (sep : List Char) : Nat → List Char → List (List Char)
  | _, [] => [[]]
  | 0, s => [s]
  | fuel + 1, c :: rest =>
    if !sep.isEmpty && sep.isPrefixOf (c :: rest) then
      [] :: splitFuel sep fuel ((c :: rest).drop sep.length)
    else
      match splitFuel sep fuel rest with
      | [] => [[c]]
      | p :: ps => (c :: p) :: ps

/-- Python s.split(sep). -/
def pySplit (s sep : String) : List String :=
  (splitFuel sep.data s.data.length s.data).map (fun l => ⟨l⟩)

end PyStr

namespace ExportPP

/-- A Python scalar reachable inside a prevention setting value: a bool or
a string. -/
inductive Prim
  | pb (b : Bool)
  | ps (s : String)
  deriving Repr, DecidableEq

/-- Python str() of the scalar. -/
def Prim.pyStr : Prim → String
  | .pb true => "True"
  | .pb false => "False"
  | .ps s => s

/-- A setting value as returned by the API: a scalar or a dict of
scalars. -/
inductive SVal
  | prim (p : Prim)
  | vdict (kvs : List (String × Prim))
  deriving Repr, DecidableEq

/-- The stringification of src/CSExporter/exportpp.py lines 224-227:
"/".join(f"k:v" for k, v in value.items()) for a dict (items in insertion
order), str(value) otherwise. -/
def svalStr : SVal → String
  | .prim p => p.pyStr
  | .vdict kvs =>
    String.intercalate "/" (kvs.map (fun kv => kv.1 ++ ":" ++ kv.2.pyStr))

/-- The replacement chain of src/CSExporter/exportpp.py lines 229-243
collapsing enabled and configured encodings (str.replace replaces every
occurrence; the guarding in checks make no difference). -/
def collapseBools (s : String) : String :=
  let s1 := PyStr.pyReplace s "enabled:True" "True"
  let s2 := PyStr.pyReplace s1 "enabled:False" "False"
  let s3 := PyStr.pyReplace s2 "configured:True/True" "True"
  let s4 := PyStr.pyReplace s3 "configured:False/False" "False"
  let s5 := PyStr.pyReplace s4 "configured:True" "True"
  let s6 := PyStr.pyReplace s5 "configured:False" "False"
  s6

/-- Python f-string rendering of a possibly-missing name (f"None ..." when
the dict had no name key). -/
def pyFmt : Option String → String
  | some s => s
  | none => "None"

/-- next((part.split(":")[1] for part in parts if part.startswith(tag)),
"") from src/CSExporter/exportpp.py lines 248-249. -/
def firstTagVal (parts : List String) (tag : String) : String :=
  match parts.find? (fun p => tag.data.isPrefixOf p.data) with
  | some p => (PyStr.pySplit p ":").getD 1 ""
  | none => ""

/-- The rows one setting contributes (src/CSExporter/exportpp.py lines
222-266): a compound value holding both detection: and prevention: tags is
split into a (Detection) and a (Prevention) row keyed by suffixed strings,
each emitted only when its extracted value is nonempty, and the row named
exactly Extended User Mode Data (Prevention) is skipped; every other value
yields one row under the raw motor name key. -/
def ppSettingRows (motor_name : Option String) (value : Option SVal) :
    List (Option String × String) :=
  let raw := match value with
    | none => "None"
    | some v => svalStr v
  let value_str := collapseBools raw
  if PyStr.containsSub value_str "detection:"
      && PyStr.containsSub value_str "prevention:" then
    let parts := PyStr.pySplit value_str "/"
    let detection_value := firstTagVal parts "detection:"
    let prevention_value := firstTagVal parts "prevention:"
    (if detection_value ≠ ""
      then [(some (pyFmt motor_name ++ " (Detection)"), detection_value)]
      else [])
    ++ (if prevention_value ≠ "" then
          (if pyFmt motor_name ++ " (Prevention)"
              = "Extended User Mode Data (Prevention)" then []
           else [(some (pyFmt motor_name ++ " (Prevention)"),
                  prevention_value)])
        else [])
  else [(motor_name, value_str)]

/-- One prevention setting: s.get("name") and s.get("value"). -/
structure Setting where
  name : Option String
  value : Option SVal
  deriving Repr, DecidableEq

/-- One prevention_settings group: ps.get("settings", []). -/
structure SettingsGroup where
  settings : Option (List Setting)
  deriving Repr, DecidableEq

/-- One prevention policy record as read by transform_policies
(src/CSExporter/exportpp.py lines 210-216). -/
structure Policy where
  platform_name : Option String
  name : Option String
  id : Option String
  prevention_settings : Option (List SettingsGroup)
  deriving Repr, DecidableEq

/-- per_os: platform key to motor key to policy-name key to cell string,
all dicts in insertion order; motor and policy keys are Python objects
that may be None (a missing name key). -/
abbrev PerOS :=
  List (String × List (Option String × List (Option String × String)))

/-- per_os[so][motor][pol] = v with intermediate dict creation. -/
def setCell (per_os : PerOS) (so : String) (motor : Option String)
    (pol : Option String) (v : String) : PerOS :=
  PyDict.alUpd per_os so [] (fun motors =>
    PyDict.alUpd motors motor [] (fun cells =>
      PyDict.alUpd cells pol "" (fun _ => v)))

/-- The body of the policy loop of transform_policies
(src/CSExporter/exportpp.py lines 210-272): platforms Mobile and Meta are
skipped entirely, pol_name falls back from name to id, an empty per_os
entry is created for the platform before the settings loop, each setting
contributes its rows, and a Host Count row is written for policies whose
name appears in the host_counts map. -/
def applyPolicy (host_counts : List (Option String × Nat))
    (per_os : PerOS) (pol : Policy) : PerOS :=
  let so := pol.platform_name.getD "Unknown"
  if so = "Mobile" ∨ so = "Meta" then per_os
  else
    let pol_name : Option String := match pol.name with
      | some n => some n
      | none => pol.id
    let per_os1 := PyDict.alUpd per_os so [] id
    let per_os2 := (pol.prevention_settings.getD []).foldl (fun acc g =>
      (g.settings.getD []).foldl (fun acc2 s =>
        (ppSettingRows s.name s.value).foldl (fun a kr =>
          setCell a so kr.1 pol_name kr.2) acc2) acc) per_os1
    match host_counts.find? (fun kv => kv.1 = pol_name) with
    | some kv => setCell per_os2 so (some "Host Count") pol_name
        (toString kv.2)
    | none => per_os2

/-- The static recommended-values lookup table of
src/CSExporter/exportpp.py lines 86-207, keyed by platform then by row
name. -/
def recommendedTable : String → List (String × String)
  | "Windows" =>
    [("Notify End Users", "ON"),
     ("Unknown Detection-Related Executables", "ON"),
     ("Unknown Executables", "ON"),
     ("Sensor Tampering Protection", "ON"),
     ("Additional User Mode Data", "ON"),
     ("Interpreter-Only", "ON"),
     ("Engine (Full Visibility)", "ON"),
     ("Script-Based Execution Monitoring", "ON"),
     ("HTTP Detections", "ON"),
     ("Redact HTTP Detection Details", "ON"),
     ("Hardware-Enhanced Exploit Detection", "ON"),
     ("Enhanced Exploitation Visibility", "ON"),
     ("Extended User Mode Data (Detection)", "MODERATE"),
     ("Enhanced DLL Load Visibility", "OFF"),
     ("WSL2 Visibility", "OFF"),
     ("Memory Scanning", "ON"),
     ("Scan with CPU", "ON"),
     ("BIOS Deep Visibility", "ON"),
     ("Cloud Anti-malware (Detection)", "AGGRESSIVE"),
     ("Cloud Anti-malware (Prevention)", "AGGRESSIVE"),
     ("Adware & PUP (Detection)", "AGGRESSIVE"),
     ("Adware & PUP (Prevention)", "AGGRESSIVE"),
     ("Sensor Anti-malware (Detection)", "AGGRESSIVE"),
     ("Sensor Anti-malware (Prevention)", "AGGRESSIVE"),
     ("Enhanced ML for larger files", "ON"),
     ("Sensor Anti-malware for End-User Initiated Scans (Detection)",
      "AGGRESSIVE"),
     ("Sensor Anti-malware for End-User Initiated Scans (Prevention)",
      "AGGRESSIVE"),
     ("Cloud Anti-malware for End-User Initiated Scans (Detection)",
      "AGGRESSIVE"),
     ("Cloud Anti-malware for End-User Initiated Scans (Prevention)",
      "AGGRESSIVE"),
     ("Cloud PUP/Adware for End-User Initiated Scans (Detection)",
      "DISABLED"),
     ("Cloud PUP/Adware for End-User Initiated Scans (Prevention)",
      "DISABLED"),
     ("USB Insertion Triggered Scan", "ON"),
     ("Detect on Write", "ON"),
     ("Quarantine on Write", "ON"),
     ("On Write Script File Visibility", "ON"),
     ("Quarantine & Security Center Registration", "ON"),
     ("Quarantine on Removable Media", "ON"),
     ("Cloud Anti-malware For Microsoft Office Files (Detection)",
      "AGGRESSIVE"),
     ("Cloud Anti-malware For Microsoft Office Files (Prevention)",
      "AGGRESSIVE"),
     ("Microsoft Office File Malicious Macro Removal", "ON"),
     ("Custom Blocking", "ON"),
     ("Suspicious Processes", "ON"),
     ("Suspicious Registry Operations", "ON"),
     ("Boot Configuration Database Protection", "OFF"),
     ("File System Containment", "OFF"),
     ("Suspicious Scripts and Commands", "ON"),
     ("Intelligence-Sourced Threats", "ON"),
     ("Driver Load Prevention", "ON"),
     ("Vulnerable Driver Protection", "ON"),
     ("Force ASLR", "ON"),
     ("Force DEP", "OFF"),
     ("Heap Spray Preallocation", "ON"),
     ("NULL Page Allocation", "ON"),
     ("SEH Overwrite Protection", "ON"),
     ("Backup Deletion", "ON"),
     ("Cryptowall", "ON"),
     ("File Encryption", "ON"),
     ("Locky", "ON"),
     ("File System Access", "ON"),
     ("Volume Shadow Copy - Audit", "ON"),
     ("Volume Shadow Copy - Protect", "ON"),
     ("Application Exploitation Activity", "ON"),
     ("Chopper Webshell", "ON"),
     ("Drive-by Download", "ON"),
     ("Code Injection", "ON"),
     ("JavaScript Execution Via Rundll32", "ON"),
     ("Windows Logon Bypass (\"Sticky Keys\")", "ON"),
     ("Credential Dumping", "ON"),
     ("Advanced Remediation", "ON")]
  | "Linux" =>
    [("Unknown Detection-Related Executables", "ON"),
     ("Unknown Executables", "ON"),
     ("Sensor Tampering Protection", "ON"),
     ("Script-Based Execution Monitoring", "ON"),
     ("Filesystem Visibility", "ON"),
     ("Network Visibility", "ON"),
     ("Http Visibility", "ON"),
     ("FTP Visibility", "ON"),
     ("TLS Visibility", "ON"),
     ("Extended Command Line Visibility", "ON"),
     ("Email Protocol Visibility", "ON"),
     ("Memory Visibility", "ON"),
     ("D-Bus Visibility", "ON"),
     ("Enhance PHP Visibility", "ON"),
     ("Cloud Anti-malware (Detection)", "AGGRESSIVE"),
     ("Cloud Anti-malware (Prevention)", "AGGRESSIVE"),
     ("Sensor Anti-malware (Detection)", "AGGRESSIVE"),
     ("Sensor Anti-malware (Prevention)", "AGGRESSIVE"),
     ("Quarantine", "ON"),
     ("On Write Script File Visibility", "ON"),
     ("Custom Blocking", "ON"),
     ("Suspicious Processes", "ON"),
     ("Drift Prevention", "ON")]
  | "Mac" =>
    [("Notify End Users", "ON"),
     ("Unknown Detection-Related Executables", "ON"),
     ("Sensor Tampering Protection", "ON"),
     ("Unknown Executables", "ON"),
     ("Script-Based Execution Monitoring", "ON"),
     ("Cloud Anti-malware (Detection)", "AGGRESSIVE"),
     ("Cloud Anti-malware (Prevention)", "AGGRESSIVE"),
     ("Adware & PUP (Detection)", "AGGRESSIVE"),
     ("Adware & PUP (Prevention)", "AGGRESSIVE"),
     ("Sensor Anti-malware (Detection)", "AGGRESSIVE"),
     ("Sensor Anti-malware (Prevention)", "AGGRESSIVE"),
     ("Quarantine", "ON"),
     ("Detect on Write", "ON"),
     ("Quarantine on Write", "ON"),
     ("Custom Blocking", "ON"),
     ("Suspicious Processes", "ON"),
     ("Intelligence-Sourced Threats", "ON"),
     ("XPCOM Shell", "ON"),
     ("Chopper Webshell", "ON"),
     ("Empyre Backdoor", "ON"),
     ("KcPassword Decoded", "ON"),
     ("Hash Collector", "ON")]
  | _ => []

/-- recommended.get(so, empty).get(motor, "") from
src/CSExporter/exportpp.py line 280; a None motor key is never in the
table. -/
def ppRecommended (so : String) (motor : Option String) : String :=
  match motor with
  | none => ""
  | some m =>
    match (recommendedTable so).find? (fun kv => kv.1 = m) with
    | some kv => kv.2
    | none => ""

/-- The per-column replacement of src/CSExporter/exportpp.py line 284:
df[col].replace maps cells equal to the exact string True or False to ON
or OFF and leaves every other cell unchanged. -/
def onOff (s : String) : String :=
  if s = "True" then "ON" else if s = "False" then "OFF" else s

/-- One output sheet: ordered column headers, then rows of cells; a none
cell is a missing value (pandas NaN), a none header or row key is a
Python None key. -/
structure Sheet where
  headers : List (Option String)
  rows : List (List (Option String))
  deriving Repr, DecidableEq

/-- DataFrame building of src/CSExporter/exportpp.py lines 276-284 for
one platform:
rows are the motors in insertion order, columns are the policy names in
first-appearance order, the first column holds the row label, the second
the inserted Recomended value (never ON/OFF-replaced), and the policy
cells ON/OFF-replaced. -/
def sheetOf (so : String)
    (motors : List (Option String × List (Option String × String))) :
    Sheet :=
  let polKeys := PyDict.dedupFirst
    (motors.flatMap (fun mr => mr.2.map (fun c => c.1)))
  let rows := motors.map (fun mr =>
    mr.1 :: some (ppRecommended so mr.1) ::
      polKeys.map (fun pk =>
        match mr.2.find? (fun c => c.1 = pk) with
        | some c => some (onOff c.2)
        | none => none))
  ⟨some "Motor/Configuração" :: some "Recomended" :: polKeys, rows⟩

/-- transform_policies (src/CSExporter/exportpp.py lines 73-286). -/
def transform_policies (policies : List Policy)
    (host_counts : List (Option String × Nat)) : List (String × Sheet) :=
  (policies.foldl (applyPolicy host_counts) []).map
    (fun p => (p.1, sheetOf p.1 p.2))

end ExportPP

namespace PyDict

/-- Total number of rows across a dict of row lists. -/
def totalRows : List (κ × List ρ) → Nat
  | [] => 0
  | s :: rest => s.2.length + totalRows rest

end PyDict

namespace ExportRP

/-- The enabled field inside a response setting value: a bool, or a
nested dict holding another enabled bool
(src/CSExporter/exportrp.py lines 78-80). -/
inductive REnabled
  | rb (b : Bool)
  | rd (inner : Option Bool)
  deriving Repr, DecidableEq

structure RPValue where
  enabled : Option REnabled
  deriving Repr, DecidableEq

structure RPSetting where
  name : Option String
  value : Option RPValue
  deriving Repr, DecidableEq

structure RPGroup where
  settings : Option (List RPSetting)
  deriving Repr, DecidableEq

structure RPPolicy where
  platform_name : Option String
  name : Option String
  settings : Option (List RPGroup)
  deriving Repr, DecidableEq

/-- setting.get("value", empty dict).get("enabled", False), unwrapping a
dict-valued enabled once more, then Python truthiness of the result. -/
def enabledBool : Option REnabled → Bool
  | none => false
  | some (.rb b) => b
  | some (.rd inner) => inner.getD false

/-- config_values for one policy (src/CSExporter/exportrp.py lines
74-81): motor name to Enabled/Disabled, in insertion order. -/
def configOf (pol : RPPolicy) : List (String × String) :=
  (pol.settings.getD []).foldl (fun acc g =>
    (g.settings.getD []).foldl (fun acc2 s =>
      PyDict.alUpd acc2 (s.name.getD "") "" (fun _ =>
        if enabledBool ((s.value.getD ⟨none⟩).enabled)
        then "Enabled" else "Disabled")) acc) []

/-- per_so_policy_configs (src/CSExporter/exportrp.py lines 63-82):
platform to policy name to config dict; Mobile and Meta skipped. -/
def perSO (policies : List RPPolicy) :
    List (String × List (String × List (String × String))) :=
  policies.foldl (fun acc pol =>
    let so := pol.platform_name.getD "Unknown"
    if so = "Mobile" ∨ so = "Meta" then acc
    else PyDict.alUpd acc so [] (fun d =>
      PyDict.alUpd d (pol.name.getD "Unnamed") [] (fun _ => configOf pol)))
    []

/-- The per-platform DataFrame of src/CSExporter/exportrp.py lines 86-92:
motors is a Python SET of the motor names, so CPython iterates it in an
order fixed by the per-process string hash seed; the order parameter
models that iteration and ranges over permutations of the canonical
first-appearance accumulation order.  Result: the policy-name columns in
insertion order, and one row per motor in iteration order with
cfg.get(motor, "") cells. -/
def rpSheet (order : List String → List String)
    (pcs : List (String × List (String × String))) :
    List String × List (String × List String) :=
  let motors := order (PyDict.dedupFirst
    (pcs.flatMap (fun pc => pc.2.map (fun c => c.1))))
  (pcs.map (fun pc => pc.1),
   motors.map (fun m => (m, pcs.map (fun pc =>
     match pc.2.find? (fun c => c.1 = m) with
     | some c => c.2
     | none => ""))))

/-- transform_policies (src/CSExporter/exportrp.py lines 56-94). -/
def transform_policies (order : List String → List String)
    (policies : List RPPolicy) :
    List (String × (List String × List (String × List String))) :=
  (perSO policies).map (fun p => (p.1, rpSheet order p.2))

end ExportRP

namespace ExportSup

/-- settings of a sensor-update policy: build string and
uninstall_protection, either of which may be absent; the protection value
is a bool or a string. -/
structure SupSettings where
  build : Option String
  uninstall_protection : Option ExportPP.Prim
  deriving Repr, DecidableEq

structure SupPolicy where
  platform_name : Option String
  name : Option String
  settings : Option SupSettings
  uninstall_protection : Option ExportPP.Prim
  deriving Repr, DecidableEq

/-- Build normalization (src/CSExporter/exportsup.py lines 72-79): a
nonempty build containing n (case-insensitive) reduces to N-2, N-1 or N,
checking n-2 first, then n-1, then the bare n; anything else passes
through unchanged. -/
def normBuild (build : String) : String :=
  if build = "" then build
  else if PyStr.icontains build "n" then
    (if PyStr.icontains build "n-2" then "N-2"
     else if PyStr.icontains build "n-1" then "N-1"
     else "N")
  else build

/-- pol.get("settings", empty).get("uninstall_protection",
pol.get("uninstall_protection", "")) rendered Enabled/Disabled when a
bool (src/CSExporter/exportsup.py lines 80-82). -/
def upOf (pol : SupPolicy) : String :=
  let up := match (pol.settings.getD ⟨none, none⟩).uninstall_protection with
    | some v => v
    | none => pol.uninstall_protection.getD (.ps "")
  match up with
  | .pb b => if b then "Enabled" else "Disabled"
  | .ps s => s

/-- One output row: name, normalized build, uninstall_protection
(src/CSExporter/exportsup.py lines 69-85). -/
def supRow (pol : SupPolicy) : String × String × String :=
  (pol.name.getD "Unnamed",
   normBuild ((pol.settings.getD ⟨none, none⟩).build.getD ""),
   upOf pol)

/-- transform_policies (src/CSExporter/exportsup.py lines 55-92):
platform to its policy rows in input order, Mobile and Meta skipped. -/
def transform_policies (policies : List SupPolicy) :
    List (String × List (String × String × String)) :=
  policies.foldl (fun acc pol =>
    let so := pol.platform_name.getD "Unknown"
    if so = "Mobile" ∨ so = "Meta" then acc
    else PyDict.alUpd acc so [] (fun rows => rows ++ [supRow pol])) []

end ExportSup

namespace ExportIocs

structure Metadata where
  original_filename : Option String
  deriving Repr, DecidableEq

/-- One IOC record as read by transform_iocs
(src/CSExporter/exportiocs.py lines 78-86); platforms may be a list or a
plain string. -/
structure Ioc where
  type : Option String
  value : Option String
  metadata : Option Metadata
  action : Option String
  platforms : Option (List String ⊕ String)
  deriving Repr, DecidableEq

/-- ", ".join(platforms) when a list, the raw value when a string, ""
when absent (src/CSExporter/exportiocs.py line 85). -/
def platformsStr : Option (List String ⊕ String) → String
  | some (Sum.inl l) => String.intercalate ", " l
  | some (Sum.inr s) => s
  | none => ""

/-- The four cells one IOC contributes: value, metadata original
filename, action, platforms. -/
def iocRow (ioc : Ioc) : List String :=
  [ioc.value.getD "",
   (ioc.metadata.getD ⟨none⟩).original_filename.getD "",
   ioc.action.getD "",
   platformsStr ioc.platforms]

/-- transform_iocs (src/CSExporter/exportiocs.py lines 69-93): one sheet
per distinct type in first-appearance order, a missing type routed to
the Unknown sheet, each IOC appended to exactly one sheet. -/
def transform_iocs (iocs : List Ioc) : List (String × List (List String)) :=
  iocs.foldl (fun acc ioc =>
    PyDict.alUpd acc (ioc.type.getD "Unknown") []
      (fun rows => rows ++ [iocRow ioc])) []

end ExportIocs

namespace HostGroups

theorem fetchLoop_canon (data : List α) (limit : Nat) (hl : 1 ≤ limit) :
    ∀ fuel offset acc reqs, offset < data.length →
      data.length ≤ offset + fuel * limit →
      fetchLoop (canonResp data limit) limit fuel offset acc reqs
        = some (acc ++ data.drop offset,
                reqs + (data.length - offset + limit - 1) / limit) := by
  intro fuel
  induction fuel with
  | zero =>
    intro offset acc reqs hlt hle
    simp at hle
    omega
  | succ n ih =>
    intro offset acc reqs hlt hle
    have hlen : ((data.drop offset).take limit).length
        = min limit (data.length - offset) := by
      simp [List.length_take, List.length_drop]
    by_cases hstop : data.length - offset ≤ limit
    · have htake : (data.drop offset).take limit = data.drop offset := by
        apply List.take_of_length_le
        simp [List.length_drop]
        omega
      have hcond : data.length ≤ offset + ((data.drop offset).take limit).length := by
        rw [hlen]
        omega
      have hdiv : (data.length - offset + limit - 1) / limit = 1 := by
        have h1 : 1 ≤ data.length - offset := by omega
        have heq : data.length - offset + limit - 1 = (data.length - offset - 1) + limit := by
          omega
        rw [heq, Nat.add_div_right _ (by omega : 0 < limit),
            Nat.div_eq_of_lt (by omega : data.length - offset - 1 < limit)]
      rw [fetchLoop]
      simp only [canonResp, Option.getD_some]
      rw [if_pos hcond, htake, hdiv]
    · have hcond : ¬ data.length ≤ offset + ((data.drop offset).take limit).length := by
        rw [hlen]
        omega
      rw [fetchLoop]
      simp only [canonResp, Option.getD_some]
      rw [if_neg hcond]
      have hrec := ih (offset + limit) (acc ++ (data.drop offset).take limit) (reqs + 1)
        (by omega)
        (by
          have : offset + (n + 1) * limit = offset + limit + n * limit := by ring
          omega)
      rw [hrec]
      have hjoin : acc ++ (data.drop offset).take limit ++ data.drop (offset + limit)
          = acc ++ data.drop offset := by
        rw [List.append_assoc]
        congr 1
        have : data.drop (offset + limit) = (data.drop offset).drop limit := by
          rw [List.drop_drop]
        rw [this, List.take_append_drop]
      rw [hjoin]
      have hdiv : (data.length - (offset + limit) + limit - 1) / limit + 1
          = (data.length - offset + limit - 1) / limit := by
        have h2 : data.length - (offset + limit) + limit - 1 = data.length - offset - 1 := by
          omega
        have h3 : data.length - offset + limit - 1 = (data.length - offset - 1) + limit := by
          omega
        rw [h2, h3, Nat.add_div_right _ (by omega : 0 < limit)]
      have harith : reqs + 1 + (data.length - (offset + limit) + limit - 1) / limit
          = reqs + (data.length - offset + limit - 1) / limit := by
        omega
      rw [harith]

end HostGroups

/-- C1: for page size P ≥ 1 and an upstream serving a fixed dataset of T ≥ 1
items with the true total reported in every page, fetch_host_groups returns
exactly the T items in upstream order, assembled from ceil(T/P) page
requests.  (The claim as frozen also asserts this for T = 0, where the code
still issues one request; see the counterexample.) -/
theorem c1_total_count_fetch (data : List Nat) (limit : Nat)
    (hl : 1 ≤ limit) (hne : data ≠ []) :
    HostGroups.fetch_host_groups (HostGroups.canonResp data limit) limit
        (data.length + 1)
      = some (data, HostGroups.ceilDiv data.length limit) := by
  have hpos : 0 < data.length := List.length_pos.mpr hne
  have h := HostGroups.fetchLoop_canon data limit hl (data.length + 1) 0 [] 0
    hpos
    (by
      have : data.length + 1 ≤ (data.length + 1) * limit := by
        calc data.length + 1 = (data.length + 1) * 1 := by ring
        _ ≤ (data.length + 1) * limit := Nat.mul_le_mul_left _ hl
      omega)
  rw [HostGroups.fetch_host_groups, h]
  simp [HostGroups.ceilDiv]

/-- Witness for c1_total_count_fetch: five items with page size two give
three page requests (ceil(5/2) = 3) returning all five items in order. -/
theorem c1_total_count_fetch_witness :
    HostGroups.fetch_host_groups (HostGroups.canonResp [10, 20, 30, 40, 50] 2) 2 6
      = some ([10, 20, 30, 40, 50], HostGroups.ceilDiv 5 2) := by
  have h := c1_total_count_fetch [10, 20, 30, 40, 50] 2 (by decide) (by decide)
  simpa using h

/-- C1 counterexample: with an empty dataset (reported total T = 0) and page
size P = 1 the fetch still issues one page request, while ceil(T/P) = 0; so
the claim that the result is assembled from ceil(T/P) page requests fails
at T = 0. -/
theorem c1_cex_zero_total :
    HostGroups.fetch_host_groups (HostGroups.canonResp ([] : List Nat) 1) 1 1
        = some ([], 1)
      ∧ HostGroups.ceilDiv 0 1 = 0 := by
  constructor
  · rfl
  · rfl

/-- C10: if the first page response lacks the total field in its pagination
metadata, the missing total is read as 0, the stop condition holds at once,
and the fetch returns exactly the first page resources after a single
request, whatever data later offsets would serve. -/
theorem c10_missing_total_stops_after_first_page
    (resp : Nat → HostGroups.Page α) (limit fuel : Nat)
    (hfuel : 1 ≤ fuel) (hmeta : (resp 0).total = none) :
    HostGroups.fetch_host_groups resp limit fuel
      = some ((resp 0).resources, 1) := by
  obtain ⟨n, rfl⟩ : ∃ n, fuel = n + 1 := ⟨fuel - 1, by omega⟩
  rw [HostGroups.fetch_host_groups, HostGroups.fetchLoop]
  simp [hmeta]

/-- Witness for c10_missing_total_stops_after_first_page: first page serves
two items without a total while offset 100 would serve more data; the fetch
returns just the two items from one request. -/
theorem c10_missing_total_witness :
    HostGroups.fetch_host_groups
        (fun offset => if offset = 0 then ⟨[7, 8], none⟩
          else ⟨[9], some 3⟩ : Nat → HostGroups.Page Nat) 100 1
      = some ([7, 8], 1) := by
  exact c10_missing_total_stops_after_first_page _ 100 1 (by decide) (by decide)

namespace Exclusions

theorem fetch_details_counts (resp : ι → Option (List ρ)) :
    ∀ ids : List ι,
      (∀ i ∈ ids, ∀ rs, resp i = some rs → rs.length = 1) →
      (fetch_details resp ids).1.length
          = ids.length - (ids.filter (fun i => (resp i).isNone)).length
        ∧ (fetch_details resp ids).2.1
          = (ids.filter (fun i => (resp i).isNone)).length
        ∧ (fetch_details resp ids).2.2 = ids.length := by
  intro ids
  induction ids with
  | nil => intro _; exact ⟨rfl, rfl, rfl⟩
  | cons i rest ih =>
    intro hone
    have hrest := ih (fun j hj rs hrs => hone j (List.mem_cons_of_mem i hj) rs hrs)
    have hfle : (rest.filter (fun j => (resp j).isNone)).length ≤ rest.length :=
      List.length_filter_le _ _
    rcases hresp : resp i with _ | rs
    · have hfilter : ((i :: rest).filter (fun j => (resp j).isNone))
          = i :: rest.filter (fun j => (resp j).isNone) := by
        simp [List.filter_cons, hresp]
      rw [fetch_details]
      simp only [hresp, hfilter]
      refine ⟨?_, ?_, ?_⟩
      · simp only [List.length_cons]
        omega
      · simp only [List.length_cons]
        omega
      · simp only [List.length_cons]
        omega
    · have hlen1 : rs.length = 1 := hone i (List.mem_cons_self i rest) rs hresp
      have hfilter : ((i :: rest).filter (fun j => (resp j).isNone))
          = rest.filter (fun j => (resp j).isNone) := by
        simp [List.filter_cons, hresp]
      rw [fetch_details]
      simp only [hresp, hfilter]
      refine ⟨?_, ?_, ?_⟩
      · simp only [List.length_append, List.length_cons, hlen1]
        omega
      · exact hrest.2.1
      · simp only [List.length_cons]
        omega

end Exclusions

/-- C2: hydrating N identifiers one request per id, where exactly one
request fails (non-200 status or unparseable body, modelled as none) and
every successful request returns one resource, fetch_details returns
exactly N - 1 resources, records exactly 1 failed identifier, and attempts
all N identifiers, including those after the failing one. -/
theorem c2_hydration_single_failure (resp : ι → Option (List ρ))
    (ids : List ι)
    (hfail : (ids.filter (fun i => (resp i).isNone)).length = 1)
    (hone : ∀ i ∈ ids, ∀ rs, resp i = some rs → rs.length = 1) :
    (Exclusions.fetch_details resp ids).1.length = ids.length - 1
      ∧ (Exclusions.fetch_details resp ids).2.1 = 1
      ∧ (Exclusions.fetch_details resp ids).2.2 = ids.length := by
  have h := Exclusions.fetch_details_counts resp ids hone
  rw [hfail] at h
  exact h

/-- Witness for c2_hydration_single_failure: ids 1..4 where id 3 fails and
the rest each return one resource; the hydration returns 3 resources,
records 1 failure and attempts all 4 ids. -/
theorem c2_hydration_single_failure_witness :
    (Exclusions.fetch_details
        (fun i : Nat => if i = 3 then none else some [i * 10]) [1, 2, 3, 4]).1.length = 3
      ∧ (Exclusions.fetch_details
          (fun i : Nat => if i = 3 then none else some [i * 10]) [1, 2, 3, 4]).2.1 = 1
      ∧ (Exclusions.fetch_details
          (fun i : Nat => if i = 3 then none else some [i * 10]) [1, 2, 3, 4]).2.2 = 4 := by
  exact c2_hydration_single_failure
    (fun i : Nat => if i = 3 then none else some [i * 10]) [1, 2, 3, 4]
    (by decide)
    (by decide)

/-- C3 counterexample: a bundle of two sheets written with an I/O failure
after the first sheet write leaves a one-sheet file under the final
destination name, which is neither absent nor the whole bundle; so the
write is not all-or-nothing. -/
theorem c3_cex_partial_file :
    ¬ (PPWriter.save_to_excel_run [("A", 1), ("B", 2)] "t" (some 1) = none
        ∨ PPWriter.save_to_excel_run [("A", 1), ("B", 2)] "t" (some 1)
            = some (PPWriter.sheetSeq [("A", 1), ("B", 2)] "t")) := by
  decide

/-- C3 amended: save_to_excel writes the bundle sheets in order followed by
the Meta sheet last, directly to the destination file; a failure-free run
leaves the whole bundle there, while an I/O failure after j sheet writes
leaves exactly the first j sheets under the final name (the source passes
the final destination name straight to pd.ExcelWriter, with no temporary
file or rename). -/
theorem c3_write_direct_not_atomic (per_os : List (String × Nat))
    (now : String) (j : Nat) :
    PPWriter.save_to_excel_run per_os now none
        = some (PPWriter.sheetSeq per_os now)
      ∧ (PPWriter.sheetSeq per_os now).getLast?
          = some ("Meta", Sum.inr (PPWriter.metaOf per_os now))
      ∧ PPWriter.save_to_excel_run per_os now (some j)
          = some ((PPWriter.sheetSeq per_os now).take j) := by
  refine ⟨rfl, ?_, rfl⟩
  rw [PPWriter.sheetSeq, List.getLast?_append]
  rfl

/-- C5: transform_rules is not total over records whose field_values
entries carry an empty values list: a rule group holding one rule whose
single field_values entry is named ImageFilename with values equal to the
empty list makes the transform raise IndexError instead of substituting
the empty-string default. -/
theorem c5_transform_rules_raises_on_empty_values :
    IoaRules.transform_rules
        [⟨some [⟨some "r1", none, none, none, none,
          some [⟨some "ImageFilename", some []⟩]⟩]⟩]
      = Except.error "IndexError: list index out of range" := by
  rfl


namespace PyStr

theorem occurs_append_left (p q : List Char) :
    ∀ l, occurs (p ++ q) l = true → occurs p l = true := by
  intro l
  induction l with
  | nil =>
    intro h
    rw [occurs] at h ⊢
    rw [List.isEmpty_iff] at h ⊢
    exact List.append_eq_nil.mp h |>.1
  | cons c rest ih =>
    intro h
    rw [occurs, Bool.or_eq_true] at h ⊢
    rcases h with h | h
    · left
      rw [List.isPrefixOf_iff_prefix] at h ⊢
      exact (List.prefix_append p q).trans h
    · right
      exact ih h

theorem icontains_n_of_n2 (s : String) (h : icontains s "n-2" = true) :
    icontains s "n" = true := by
  rw [icontains] at h ⊢
  exact occurs_append_left "n".data "-2".data _ h

theorem icontains_n_of_n1 (s : String) (h : icontains s "n-1" = true) :
    icontains s "n" = true := by
  rw [icontains] at h ⊢
  exact occurs_append_left "n".data "-1".data _ h

end PyStr

namespace ExportSup

theorem normBuild_cases (b : String) (hb : b ≠ "") :
    normBuild b
      = (if PyStr.icontains b "n-2" then "N-2"
         else if PyStr.icontains b "n-1" then "N-1"
         else if PyStr.icontains b "n" then "N"
         else b) := by
  unfold normBuild
  rw [if_neg hb]
  by_cases h2 : PyStr.icontains b "n-2" = true
  · have hn : PyStr.icontains b "n" = true := PyStr.icontains_n_of_n2 b h2
    simp [hn, h2]
  · by_cases h1 : PyStr.icontains b "n-1" = true
    · have hn : PyStr.icontains b "n" = true := PyStr.icontains_n_of_n1 b h1
      simp [hn, h1, h2]
    · by_cases hn : PyStr.icontains b "n" = true
      · simp [hn, h1, h2]
      · simp [hn, h1, h2]

end ExportSup

/-- C9: for every nonempty raw build string, the sensor-update transform
renders the build cell as N-2 when the string contains n-2
(case-insensitive, anywhere), otherwise N-1 when it contains n-1,
otherwise N when it contains n, and otherwise passes the string through
unchanged; the most specific token is checked first. -/
theorem c9_build_normalization (b : String) (hb : b ≠ "") :
    ExportSup.transform_policies
        [⟨some "Windows", some "P", some ⟨some b, some (.pb true)⟩, none⟩]
      = [("Windows", [("P",
          (if PyStr.icontains b "n-2" then "N-2"
           else if PyStr.icontains b "n-1" then "N-1"
           else if PyStr.icontains b "n" then "N"
           else b), "Enabled")])] := by
  show [("Windows", [("P", ExportSup.normBuild b, "Enabled")])] = _
  rw [ExportSup.normBuild_cases b hb]

/-- Witness for c9_build_normalization: the build string Auto N-1 contains
n-1 but not n-2 and is rendered N-1. -/
theorem c9_build_normalization_witness :
    ExportSup.transform_policies
        [⟨some "Windows", some "P", some ⟨some "Auto N-1", some (.pb true)⟩,
          none⟩]
      = [("Windows", [("P", "N-1", "Enabled")])] := by
  have h := c9_build_normalization "Auto N-1" (by decide)
  rw [h]
  decide

/-- C6 counterexample: the response-policy transform reads row order from a
Python set of motor names, so it depends on the set iteration order; for
one Windows policy with motors A and B, the identity order and the
reversed order — both permutations of the accumulated motor set, as
CPython may produce under different hash seeds in two runs — give sheets
with different row orders, so two runs of the pipeline over identical
upstream data need not produce identical sheets. -/
theorem c6_cex_row_order_depends_on_set_order :
    ExportRP.transform_policies (fun l => l)
        [⟨some "Windows", some "P",
          some [⟨some [⟨some "A", some ⟨some (.rb true)⟩⟩,
                       ⟨some "B", some ⟨some (.rb false)⟩⟩]⟩]⟩]
      ≠ ExportRP.transform_policies (fun l => l.reverse)
        [⟨some "Windows", some "P",
          some [⟨some [⟨some "A", some ⟨some (.rb true)⟩⟩,
                       ⟨some "B", some ⟨some (.rb false)⟩⟩]⟩]⟩]
    ∧ (["A", "B"] : List String).reverse.Perm ["A", "B"] := by
  constructor
  · decide
  · exact (["A", "B"] : List String).reverse_perm

/-- C6 amended: two runs of the response-policy transform over the same
input, each under its own admissible set iteration order (any permutation
of the accumulated motor names), produce the same sheets with the same
policy columns and the same rows up to row order; row order itself may
differ between runs. -/
theorem c6_same_rows_up_to_order (order1 order2 : List String → List String)
    (h1 : ∀ l, (order1 l).Perm l) (h2 : ∀ l, (order2 l).Perm l)
    (policies : List ExportRP.RPPolicy) :
    List.Forall₂ (fun a b => a.1 = b.1 ∧ a.2.1 = b.2.1 ∧ a.2.2.Perm b.2.2)
      (ExportRP.transform_policies order1 policies)
      (ExportRP.transform_policies order2 policies) := by
  unfold ExportRP.transform_policies
  induction ExportRP.perSO policies with
  | nil => exact List.Forall₂.nil
  | cons p rest ih =>
    simp only [List.map_cons]
    refine List.Forall₂.cons ⟨rfl, rfl, ?_⟩ ih
    exact ((h1 _).trans (h2 _).symm).map _

/-- Witness for c6_same_rows_up_to_order at the identity and reversal
orders on a concrete one-policy input. -/
theorem c6_same_rows_up_to_order_witness :
    List.Forall₂ (fun a b => a.1 = b.1 ∧ a.2.1 = b.2.1 ∧ a.2.2.Perm b.2.2)
      (ExportRP.transform_policies (fun l => l)
        [⟨some "Windows", some "P",
          some [⟨some [⟨some "A", some ⟨some (.rb true)⟩⟩,
                       ⟨some "B", some ⟨some (.rb false)⟩⟩]⟩]⟩])
      (ExportRP.transform_policies (fun l => l.reverse)
        [⟨some "Windows", some "P",
          some [⟨some [⟨some "A", some ⟨some (.rb true)⟩⟩,
                       ⟨some "B", some ⟨some (.rb false)⟩⟩]⟩]⟩]) := by
  exact c6_same_rows_up_to_order (fun l => l) (fun l => l.reverse)
    (fun l => List.Perm.refl l) (fun l => l.reverse_perm) _

namespace PyDict

theorem totalRows_alUpd [DecidableEq κ] (acc : List (κ × List ρ)) (k : κ)
    (r : ρ) :
    totalRows (alUpd acc k [] (fun rows => rows ++ [r]))
      = totalRows acc + 1 := by
  induction acc with
  | nil => simp [alUpd, totalRows]
  | cons kv rest ih =>
    rw [alUpd]
    by_cases h : kv.1 = k
    · simp only [h, if_true, totalRows, List.length_append, List.length_cons,
        List.length_nil]
      omega
    · simp only [h, if_false, totalRows, ih]
      omega

theorem keys_alUpd [DecidableEq κ] (acc : List (κ × ν)) (k : κ) (d : ν)
    (f : ν → ν) :
    (alUpd acc k d f).map Prod.fst
      = if k ∈ acc.map Prod.fst then acc.map Prod.fst
        else acc.map Prod.fst ++ [k] := by
  induction acc with
  | nil => simp [alUpd]
  | cons kv rest ih =>
    rw [alUpd]
    by_cases h : kv.1 = k
    · simp [h]
    · have hne : ¬ k = kv.1 := fun hk => h hk.symm
      simp only [h, if_false, List.map_cons, ih, List.mem_cons, hne,
        false_or]
      by_cases hm : k ∈ rest.map Prod.fst
      · simp [hm]
      · simp [hm]

end PyDict

namespace ExportIocs

theorem transform_iocs_fold :
    ∀ (iocs : List Ioc) (acc : List (String × List (List String))),
      PyDict.totalRows (iocs.foldl (fun a ioc =>
          PyDict.alUpd a (ioc.type.getD "Unknown") []
            (fun rows => rows ++ [iocRow ioc])) acc)
        = PyDict.totalRows acc + iocs.length
      ∧ (iocs.foldl (fun a ioc =>
          PyDict.alUpd a (ioc.type.getD "Unknown") []
            (fun rows => rows ++ [iocRow ioc])) acc).map Prod.fst
        = (iocs.map (fun i => i.type.getD "Unknown")).foldl
            (fun ks t => if t ∈ ks then ks else ks ++ [t])
            (acc.map Prod.fst) := by
  intro iocs
  induction iocs with
  | nil => intro acc; exact ⟨rfl, rfl⟩
  | cons i rest ih =>
    intro acc
    constructor
    · rw [List.foldl_cons, (ih _).1, PyDict.totalRows_alUpd,
        List.length_cons]
      omega
    · rw [List.foldl_cons, (ih _).2, List.map_cons, List.foldl_cons,
        PyDict.keys_alUpd]

end ExportIocs

/-- C7 amended for the IOC transform: every input IOC contributes exactly
one row (total rows across sheets equals the input length, nothing
dropped), and the sheets are exactly the distinct type discriminators in
first-appearance order with a missing type routed to the sheet named
Unknown.  (The prevention-policy transform cited by the same claim does
drop resources: see the counterexample.) -/
theorem c7_iocs_route_every_resource (iocs : List ExportIocs.Ioc) :
    PyDict.totalRows (ExportIocs.transform_iocs iocs) = iocs.length
    ∧ (ExportIocs.transform_iocs iocs).map Prod.fst
        = PyDict.dedupFirst (iocs.map (fun i => i.type.getD "Unknown")) := by
  have h := ExportIocs.transform_iocs_fold iocs []
  refine ⟨?_, ?_⟩
  · have h1 := h.1
    rw [show PyDict.totalRows ([] : List (String × List (List String))) = 0
        from rfl, Nat.zero_add] at h1
    exact h1
  · have h2 := h.2
    exact h2

/-- C7 counterexample: the prevention-policy transform silently drops
resources whose platform discriminator is Mobile (and likewise Meta): a
single Mobile policy with one setting produces no sheet at all, so it is
not the case that every resource carrying a discriminator contributes to
exactly one output sheet. -/
theorem c7_cex_mobile_policy_dropped :
    ExportPP.transform_policies
        [⟨some "Mobile", some "P1", none,
          some [⟨some [⟨some "M", some (.prim (.pb true))⟩]⟩]⟩] []
      = [] := by
  rfl

namespace ExportPP

theorem transform_singleton (hc : List (Option String × Nat)) (pol : Policy)
    (so : String)
    (motors : List (Option String × List (Option String × String)))
    (sh : Sheet)
    (h : applyPolicy hc [] pol = [(so, motors)])
    (h2 : sheetOf so motors = sh) :
    transform_policies [pol] hc = [(so, sh)] := by
  unfold transform_policies
  rw [List.foldl_cons, List.foldl_nil, h, List.map_cons, List.map_nil, h2]

end ExportPP

/-- C4 amended: a setting whose value carries both a detection and a
prevention indicator is split into two rows suffixed (Detection) and
(Prevention) carrying the respective indicator values, except that the
prevention row is dropped when its full name is exactly Extended User
Mode Data (Prevention); the second conjunct shows the split and the
exclusion through the whole transform.  (The exclusion only guards the
compound-split path: a setting literally named Extended User Mode Data
(Prevention) still produces that row — see the counterexample.) -/
theorem c4_compound_split_and_exclusion :
    (∀ m : String,
      ExportPP.ppSettingRows (some m)
          (some (.vdict [("detection", .ps "aggressive"),
                         ("prevention", .ps "aggressive")]))
        = (some (m ++ " (Detection)"), "aggressive") ::
          (if m ++ " (Prevention)" = "Extended User Mode Data (Prevention)"
           then []
           else [(some (m ++ " (Prevention)"), "aggressive")]))
    ∧ ExportPP.transform_policies
        [⟨some "Windows", some "P1", none,
          some [⟨some [⟨some "Cloud Anti-malware",
              some (.vdict [("detection", .ps "aggressive"),
                            ("prevention", .ps "aggressive")])⟩,
            ⟨some "Extended User Mode Data",
              some (.vdict [("detection", .ps "moderate"),
                            ("prevention", .ps "moderate")])⟩]⟩]⟩] []
      = [("Windows",
          ⟨[some "Motor/Configuração", some "Recomended", some "P1"],
           [[some "Cloud Anti-malware (Detection)", some "AGGRESSIVE",
             some "aggressive"],
            [some "Cloud Anti-malware (Prevention)", some "AGGRESSIVE",
             some "aggressive"],
            [some "Extended User Mode Data (Detection)", some "MODERATE",
             some "moderate"]]⟩)] := by
  refine ⟨fun m => rfl, ?_⟩
  exact ExportPP.transform_singleton _ _ _ _ _ rfl rfl

/-- C4 counterexample: a raw setting literally named Extended User Mode
Data (Prevention) with a plain boolean value takes the non-compound path
of the transform and emits exactly that row, so the row does appear in an
output sheet for some input. -/
theorem c4_cex_literal_prevention_row_name :
    ExportPP.transform_policies
        [⟨some "Windows", some "P1", none,
          some [⟨some [⟨some "Extended User Mode Data (Prevention)",
            some (.prim (.pb true))⟩]⟩]⟩] []
      = [("Windows",
          ⟨[some "Motor/Configuração", some "Recomended", some "P1"],
           [[some "Extended User Mode Data (Prevention)", some "",
             some "ON"]]⟩)] := by
  exact ExportPP.transform_singleton _ _ _ _ _ rfl rfl

set_option maxHeartbeats 8000000 in
/-- C8 amended: a setting value of shape enabled:<bool>,
configured:<bool>, or configured:<bool>/<bool> with both booleans equal
collapses to a plain boolean rendered as the literal ON or OFF in the
per-policy settings column, while the injected Recomended column sits as
the second column (after the row-label column) and holds the raw
static-lookup value, never subject to the ON/OFF replacement.  (The
frozen claim also covers configured:<bool>/<bool> with differing
booleans, which does not collapse — see the counterexample.) -/
theorem c8_on_off_rendering_and_recommended_column (m : String) (b : Bool) :
    ExportPP.transform_policies
        [⟨some "Windows", some "P1", none,
          some [⟨some [⟨some m, some (.vdict [("enabled", .pb b)])⟩]⟩]⟩] []
      = [("Windows",
          ⟨[some "Motor/Configuração", some "Recomended", some "P1"],
           [[some m, some (ExportPP.ppRecommended "Windows" (some m)),
             some (if b then "ON" else "OFF")]]⟩)]
    ∧ ExportPP.transform_policies
        [⟨some "Windows", some "P1", none,
          some [⟨some [⟨some m, some (.vdict [("configured", .pb b)])⟩]⟩]⟩]
        []
      = [("Windows",
          ⟨[some "Motor/Configuração", some "Recomended", some "P1"],
           [[some m, some (ExportPP.ppRecommended "Windows" (some m)),
             some (if b then "ON" else "OFF")]]⟩)]
    ∧ ExportPP.transform_policies
        [⟨some "Windows", some "P1", none,
          some [⟨some [⟨some m, some (.vdict [("configured",
            .ps (if b then "True/True" else "False/False"))])⟩]⟩]⟩] []
      = [("Windows",
          ⟨[some "Motor/Configuração", some "Recomended", some "P1"],
           [[some m, some (ExportPP.ppRecommended "Windows" (some m)),
             some (if b then "ON" else "OFF")]]⟩)] := by
  cases b
  · exact ⟨ExportPP.transform_singleton _ _ _ _ _ rfl rfl,
      ExportPP.transform_singleton _ _ _ _ _ rfl rfl,
      ExportPP.transform_singleton _ _ _ _ _ rfl rfl⟩
  · exact ⟨ExportPP.transform_singleton _ _ _ _ _ rfl rfl,
      ExportPP.transform_singleton _ _ _ _ _ rfl rfl,
      ExportPP.transform_singleton _ _ _ _ _ rfl rfl⟩

/-- C8 counterexample: the value configured:True/False has the claimed
shape configured:<bool>/<bool> but does not collapse to a plain boolean:
the transform leaves the cell as the string True/False, which is neither
ON nor OFF. -/
theorem c8_cex_mixed_configured_pair :
    ExportPP.transform_policies
        [⟨some "Windows", some "P1", none,
          some [⟨some [⟨some "M",
            some (.vdict [("configured", .ps "True/False")])⟩]⟩]⟩] []
      = [("Windows",
          ⟨[some "Motor/Configuração", some "Recomended", some "P1"],
           [[some "M", some "", some "True/False"]]⟩)]
    ∧ "True/False" ≠ "ON" ∧ "True/False" ≠ "OFF" := by
  refine ⟨ExportPP.transform_singleton _ _ _ _ _ rfl rfl, by decide, by decide⟩
